import Mathlib

/-!
# Verification of the OpenDCP package assembly/validation core

Shallow embedding of `src/libopendcp/opendcp_common.c`: essence
classification (`get_asset_type`), reel validation (`validate_reel`),
asset construction overrides (`add_asset`), reel assembly
(`add_asset_to_reel`) and the aggregation operations
(`add_reel_to_cpl`, `add_cpl_to_pkl`, `add_pkl_to_dcp`).

C structs are Lean structures; machine `int` duration/entry-point
fields are `Nat` (frame counts, nonnegative); C truthiness `if (x)`
on such a field is `x ≠ 0`.  Log emissions that a claim observes are
returned as explicit booleans.  The struct layouts come from the
spec's data model (the header `opendcp.h` is not part of the given
source); every function body is translated from the C file.
-/

/-- Modelled from the spec: essence encoding tags (the enum lives in the
missing header `opendcp.h`; the tags named here are exactly those the
C source and spec table mention, with `AET_UNKNOWN` standing for every
other encoding type). -/
inductive asset_essence_type_t where
  | AET_UNKNOWN
  | AET_MPEG2_VES
  | AET_JPEG_2000
  | AET_PCM_24b_48k
  | AET_JPEG_2000_S
  | AET_PCM_24b_96k
  | AET_TIMED_TEXT
  deriving DecidableEq, Repr

/-- Modelled from the spec: track classes (enum from the missing header). -/
inductive asset_class_t where
  | ACT_UNKNOWN
  | ACT_PICTURE
  | ACT_SOUND
  | ACT_TIMED_TEXT
  deriving DecidableEq, Repr

/-- Modelled from the spec: XML namespace / specification variants. -/
inductive xml_ns_t where
  | XML_NS_UNKNOWN
  | XML_NS_INTEROP
  | XML_NS_SMPTE
  deriving DecidableEq, Repr

/-- Return codes used by the embedded functions. -/
inductive opendcp_status_t where
  | OPENDCP_NO_ERROR
  | OPENDCP_ERROR
  | OPENDCP_FILEOPEN
  | OPENDCP_INVALID_TRACK_TYPE
  | OPENDCP_NO_PICTURE_TRACK
  | OPENDCP_MULTIPLE_PICTURE_TRACK
  | OPENDCP_SPECIFICATION_MISMATCH
  deriving DecidableEq, Repr

open asset_essence_type_t asset_class_t xml_ns_t opendcp_status_t

/-- Modelled from the spec: the `asset_t` record (layout from the missing
header, fields as read/written by the C source). -/
structure asset_t where
  filename : String := ""
  annotation : String := ""
  size : Nat := 0
  essence_type : asset_essence_type_t := AET_UNKNOWN
  essence_class : asset_class_t := ACT_UNKNOWN
  xml_ns : xml_ns_t := XML_NS_UNKNOWN
  duration : Nat := 0
  entry_point : Nat := 0
  aspect_ratio : String := ""
  deriving DecidableEq, Repr

/-- Modelled from the spec: a reel holds one optional asset per track class. -/
structure reel_t where
  uuid : String := ""
  annotation : String := ""
  main_picture : asset_t := {}
  main_sound : asset_t := {}
  main_subtitle : asset_t := {}
  deriving DecidableEq, Repr

/-- Modelled from the spec: content playlist with a fixed-capacity reel
sequence (`reel.length` is the capacity of the C array). -/
structure cpl_t where
  uuid : String := ""
  annotation : String := ""
  issuer : String := ""
  creator : String := ""
  title : String := ""
  kind : String := ""
  rating : String := ""
  timestamp : String := ""
  filename : String := ""
  reel : List reel_t := []
  reel_count : Nat := 0
  deriving DecidableEq, Repr

/-- Modelled from the spec: packaging list with a fixed-capacity cpl
sequence. -/
structure pkl_t where
  uuid : String := ""
  annotation : String := ""
  issuer : String := ""
  creator : String := ""
  timestamp : String := ""
  filename : String := ""
  cpl : List cpl_t := []
  cpl_count : Nat := 0
  deriving DecidableEq, Repr

/-- Modelled from the spec: top-level dcp record with a fixed-capacity pkl
sequence and package-wide configuration. -/
structure dcp_t where
  issuer : String := ""
  creator : String := ""
  annotation : String := ""
  title : String := ""
  kind : String := ""
  rating : String := ""
  basename : String := ""
  timestamp : String := ""
  aspect_ratio : String := ""
  pkl : List pkl_t := []
  pkl_count : Nat := 0
  deriving DecidableEq, Repr

/-- Modelled from the spec: the opendcp context fields the embedded
functions read (`ns`, forced `duration`, forced `entry_point`, `dcp`). -/
structure opendcp_t where
  ns : xml_ns_t := XML_NS_UNKNOWN
  duration : Nat := 0
  entry_point : Nat := 0
  dcp : dcp_t := {}
  deriving DecidableEq, Repr

/-- `get_asset_type` (opendcp_common.c lines 94-114): classify an asset's
essence encoding into a track class. -/
def get_asset_type (asset : asset_t) : asset_class_t :=
  match asset.essence_type with
  | AET_MPEG2_VES => ACT_PICTURE
  | AET_JPEG_2000 => ACT_PICTURE
  | AET_JPEG_2000_S => ACT_PICTURE
  | AET_PCM_24b_48k => ACT_SOUND
  | AET_PCM_24b_96k => ACT_SOUND
  | AET_TIMED_TEXT => ACT_TIMED_TEXT
  | _ => ACT_UNKNOWN

/-- Running duration after the sound stage of `validate_reel`
(lines 342-350): the C local `d` after the sound check. -/
def reel_d1 (reel : reel_t) : Nat :=
  if reel.main_sound.duration ≠ 0 ∧
      reel.main_sound.duration ≠ reel.main_picture.duration then
    if reel.main_sound.duration < reel.main_picture.duration then
      reel.main_sound.duration
    else
      reel.main_picture.duration
  else
    reel.main_picture.duration

/-- Running duration after the subtitle stage of `validate_reel`
(lines 352-358): the C local `d` at line 360. -/
def reel_d2 (reel : reel_t) : Nat :=
  if reel.main_subtitle.duration ≠ 0 ∧
      reel.main_subtitle.duration ≠ reel_d1 reel then
    if reel.main_subtitle.duration < reel_d1 reel then
      reel.main_subtitle.duration
    else
      reel_d1 reel
  else
    reel_d1 reel

/-- The C local `duration_mismatch` of `validate_reel` at line 360. -/
def reel_dm (reel : reel_t) : Prop :=
  (reel.main_sound.duration ≠ 0 ∧
    reel.main_sound.duration ≠ reel.main_picture.duration) ∨
  (reel.main_subtitle.duration ≠ 0 ∧
    reel.main_subtitle.duration ≠ reel_d1 reel)

instance (reel : reel_t) : Decidable (reel_dm reel) := by
  unfold reel_dm
  exact inferInstance

/-- `validate_reel` (opendcp_common.c lines 305-368).  Returns the status
code and the (possibly mutated) reel.  The log-only `reel_number`
bookkeeping has no effect on the result and is omitted. -/
def validate_reel (reel : reel_t) : opendcp_status_t × reel_t :=
  let picture : Nat :=
    if reel.main_picture.essence_class = ACT_PICTURE then 1 else 0
  if picture < 1 then
    (OPENDCP_NO_PICTURE_TRACK, reel)
  else if 1 < picture then
    (OPENDCP_MULTIPLE_PICTURE_TRACK, reel)
  else if reel.main_sound.duration ≠ 0 ∧
      reel.main_picture.xml_ns ≠ reel.main_sound.xml_ns then
    (OPENDCP_SPECIFICATION_MISMATCH, reel)
  else if reel.main_subtitle.duration ≠ 0 ∧
      reel.main_picture.xml_ns ≠ reel.main_subtitle.xml_ns then
    (OPENDCP_SPECIFICATION_MISMATCH, reel)
  else if reel_dm reel then
    (OPENDCP_NO_ERROR,
      { reel with
          main_picture := { reel.main_picture with duration := reel_d2 reel },
          main_sound := { reel.main_sound with duration := reel_d2 reel },
          main_subtitle := { reel.main_subtitle with duration := reel_d2 reel } })
  else
    (OPENDCP_NO_ERROR, reel)

/-- Result of `add_asset`: status, the built asset, and the two advisory
warnings (line 421 and line 431) the override policy can emit. -/
structure add_asset_result_t where
  status : opendcp_status_t
  asset : asset_t := {}
  duration_warning : Bool := false
  entry_point_warning : Bool := false
  deriving DecidableEq, Repr

/-- `add_asset` (opendcp_common.c lines 375-439).  The two external
effects are passed in: `file_openable` is the outcome of the `fopen`
probe (line 385) and `probe_result` the outcome of the essence-probe
collaborator `read_asset_info` (line 403) — `none` for `OPENDCP_ERROR`,
otherwise the asset with filename/annotation/size and all probed fields
populated.  What this function itself computes is the override policy
of lines 410-433. -/
def add_asset (opendcp : opendcp_t) (file_openable : Bool)
    (probe_result : Option asset_t) : add_asset_result_t :=
  if file_openable = false then
    { status := OPENDCP_FILEOPEN }
  else
    match probe_result with
    | none => { status := OPENDCP_INVALID_TRACK_TYPE }
    | some probed =>
      let a1 :=
        if opendcp.dcp.aspect_ratio ≠ "" then
          { probed with aspect_ratio := opendcp.dcp.aspect_ratio }
        else
          probed
      let a2 :=
        if opendcp.duration ≠ 0 then
          if opendcp.duration < a1.duration then
            { a1 with duration := opendcp.duration }
          else
            a1
        else
          a1
      let dur_warn :=
        decide (opendcp.duration ≠ 0 ∧ ¬opendcp.duration < a1.duration)
      let a3 :=
        if opendcp.entry_point ≠ 0 then
          if opendcp.entry_point < a2.duration then
            { a2 with entry_point := opendcp.entry_point }
          else
            a2
        else
          a2
      let ep_warn :=
        decide (opendcp.entry_point ≠ 0 ∧ ¬opendcp.entry_point < a2.duration)
      { status := OPENDCP_NO_ERROR, asset := a3,
        duration_warning := dur_warn, entry_point_warning := ep_warn }

/-- The slot-routing switch of `add_asset_to_reel` (lines 457-477). -/
def place_asset (opendcp : opendcp_t) (reel : reel_t) (asset : asset_t) :
    opendcp_status_t × opendcp_t × reel_t :=
  match get_asset_type asset with
  | ACT_PICTURE => (OPENDCP_NO_ERROR, opendcp, { reel with main_picture := asset })
  | ACT_SOUND => (OPENDCP_NO_ERROR, opendcp, { reel with main_sound := asset })
  | ACT_TIMED_TEXT => (OPENDCP_NO_ERROR, opendcp, { reel with main_subtitle := asset })
  | ACT_UNKNOWN => (OPENDCP_ERROR, opendcp, reel)

/-- `add_asset_to_reel` (opendcp_common.c lines 441-480).  The mutation of
the package-wide `opendcp->ns` is explicit state passing: the result
carries the status, the updated context and the updated reel. -/
def add_asset_to_reel (opendcp : opendcp_t) (reel : reel_t) (asset : asset_t) :
    opendcp_status_t × opendcp_t × reel_t :=
  if opendcp.ns = XML_NS_UNKNOWN then
    place_asset { opendcp with ns := asset.xml_ns } reel asset
  else if opendcp.ns ≠ asset.xml_ns then
    (OPENDCP_SPECIFICATION_MISMATCH, opendcp, reel)
  else
    place_asset opendcp reel asset

/-- `add_reel_to_cpl` (opendcp_common.c lines 370-373):
`memcpy(&cpl->reel[cpl->reel_count], &reel, sizeof(reel_t)); cpl->reel_count++;`. -/
def add_reel_to_cpl (c : cpl_t) (r : reel_t) : cpl_t :=
  { c with reel := c.reel.set c.reel_count r, reel_count := c.reel_count + 1 }

/-- `add_cpl_to_pkl` (opendcp_common.c lines 280-285):
`memcpy(&pkl->cpl[pkl->cpl_count], &cpl, sizeof(cpl_t)); pkl->cpl_count++;`. -/
def add_cpl_to_pkl (p : pkl_t) (c : cpl_t) : pkl_t :=
  { p with cpl := p.cpl.set p.cpl_count c, cpl_count := p.cpl_count + 1 }

/-- `add_pkl_to_dcp` (opendcp_common.c lines 226-231):
`memcpy(dcp[dcp->pkl_count].pkl, &pkl, sizeof(pkl_t)); dcp->pkl_count++;`.
The C destination indexes the `dcp` POINTER itself: `dcp[i].pkl` is the
pkl array of the i-th `dcp_t` struct starting at that pointer, and the
memcpy of one `pkl_t` lands in slot 0 of that array.  `mem` is the run
of `dcp_t` structs actually allocated at the pointer (a caller holds
exactly one); an index past `mem` is an out-of-bounds write and yields
`none`.  `dcp->pkl_count++` increments struct 0's count. -/
def add_pkl_to_dcp (mem : List dcp_t) (p : pkl_t) : Option (List dcp_t) :=
  match mem with
  | [] => none
  | d0 :: rest =>
    match (d0 :: rest).get? d0.pkl_count with
    | none => none
    | some di =>
      match (d0 :: rest).set d0.pkl_count { di with pkl := di.pkl.set 0 p } with
      | [] => none
      | e0 :: rest1 => some ({ e0 with pkl_count := e0.pkl_count + 1 } :: rest1)

/-! ## Spec-side predicates (worded from the specification, to be compared
with the code-side definitions above) -/

/-- Spec §4.4 step 3: the running duration after the Sound step — the
minimum of Picture and a present Sound. -/
def running_duration_after_sound (reel : reel_t) : Nat :=
  if reel.main_sound.duration ≠ 0 then
    Nat.min reel.main_picture.duration reel.main_sound.duration
  else
    reel.main_picture.duration

/-- Spec: "the minimum of the durations of the tracks that are present
(Picture always counted)"; Sound/TimedText are present when their
duration is nonzero. -/
def present_min_duration (reel : reel_t) : Nat :=
  List.foldl Nat.min reel.main_picture.duration
    ((if reel.main_sound.duration ≠ 0 then [reel.main_sound.duration] else []) ++
      (if reel.main_subtitle.duration ≠ 0 then [reel.main_subtitle.duration] else []))

/-- Spec: some present Sound or TimedText track's duration differs from
the running duration. -/
def duration_mismatch_detected (reel : reel_t) : Prop :=
  (reel.main_sound.duration ≠ 0 ∧
    reel.main_sound.duration ≠ reel.main_picture.duration) ∨
  (reel.main_subtitle.duration ≠ 0 ∧
    reel.main_subtitle.duration ≠ running_duration_after_sound reel)

instance (reel : reel_t) : Decidable (duration_mismatch_detected reel) := by
  unfold duration_mismatch_detected
  exact inferInstance

/-- Spec §4.4 step 2: the namespace-consistency failure condition. -/
def ns_check_fails (reel : reel_t) : Prop :=
  (reel.main_sound.duration ≠ 0 ∧
    reel.main_picture.xml_ns ≠ reel.main_sound.xml_ns) ∨
  (reel.main_subtitle.duration ≠ 0 ∧
    reel.main_picture.xml_ns ≠ reel.main_subtitle.xml_ns)

instance (reel : reel_t) : Decidable (ns_check_fails reel) := by
  unfold ns_check_fails
  exact inferInstance

/-! ## Concrete inputs used by witnesses and counterexamples -/

/-- Reel of spec §8: Picture duration 120, Sound duration 100, same
namespace, no TimedText. -/
def reel_120_100 : reel_t :=
  { main_picture := { essence_type := AET_JPEG_2000, essence_class := ACT_PICTURE,
                      xml_ns := XML_NS_SMPTE, duration := 120 },
    main_sound := { essence_type := AET_PCM_24b_48k, essence_class := ACT_SOUND,
                    xml_ns := XML_NS_SMPTE, duration := 100 } }

/-- Reel of spec §8: Picture and Sound in different namespace variants,
Sound duration positive. -/
def reel_ns_clash : reel_t :=
  { main_picture := { essence_type := AET_JPEG_2000, essence_class := ACT_PICTURE,
                      xml_ns := XML_NS_SMPTE, duration := 120 },
    main_sound := { essence_type := AET_PCM_24b_48k, essence_class := ACT_SOUND,
                    xml_ns := XML_NS_INTEROP, duration := 120 } }

/-- Reel with a zero-duration Picture track (class committed, duration 0),
a present Sound of 5 frames and no TimedText. -/
def reel_zero_picture : reel_t :=
  { main_picture := { essence_type := AET_JPEG_2000, essence_class := ACT_PICTURE,
                      xml_ns := XML_NS_SMPTE, duration := 0 },
    main_sound := { essence_type := AET_PCM_24b_48k, essence_class := ACT_SOUND,
                    xml_ns := XML_NS_SMPTE, duration := 5 } }

/-- Reel with Picture 120, an absent Sound (duration 0) and a present
TimedText of 100 frames. -/
def reel_absent_sound : reel_t :=
  { main_picture := { essence_type := AET_JPEG_2000, essence_class := ACT_PICTURE,
                      xml_ns := XML_NS_SMPTE, duration := 120 },
    main_subtitle := { essence_type := AET_TIMED_TEXT, essence_class := ACT_TIMED_TEXT,
                       xml_ns := XML_NS_SMPTE, duration := 100 } }

/-- Context with a forced entry point of 5 frames and no forced duration. -/
def ctx_forced_ep5 : opendcp_t := { ns := XML_NS_SMPTE, entry_point := 5 }

/-- Context with a forced duration of 50 frames and forced entry point 10. -/
def ctx_forced_dur50 : opendcp_t := { ns := XML_NS_SMPTE, duration := 50, entry_point := 10 }

/-- Probed sound asset of 5 frames. -/
def probed_sound_5 : asset_t :=
  { essence_type := AET_PCM_24b_48k, essence_class := ACT_SOUND,
    xml_ns := XML_NS_SMPTE, duration := 5 }

/-- Probed picture asset of 120 frames. -/
def probed_picture_120 : asset_t :=
  { essence_type := AET_JPEG_2000, essence_class := ACT_PICTURE,
    xml_ns := XML_NS_SMPTE, duration := 120 }

/-- Context already committed to SMPTE. -/
def ctx_smpte : opendcp_t := { ns := XML_NS_SMPTE }

/-- Context not yet committed to a namespace variant. -/
def ctx_unknown : opendcp_t := {}

/-- An Interop sound asset. -/
def asset_interop_sound : asset_t :=
  { essence_type := AET_PCM_24b_48k, essence_class := ACT_SOUND,
    xml_ns := XML_NS_INTEROP, duration := 100 }

/-- Distinct pkl values used for the `add_pkl_to_dcp` evaluation. -/
def pkl_a : pkl_t := { uuid := "a" }

/-- Second pkl value. -/
def pkl_b : pkl_t := { uuid := "b" }

/-- Third pkl value. -/
def pkl_c : pkl_t := { uuid := "c" }

/-- A dcp whose pkl sequence has capacity 2 and already holds one pkl
(`pkl_count = 1`). -/
def dcp_one_pkl : dcp_t := { pkl := [pkl_a, pkl_a], pkl_count := 1 }

/-- A neighboring dcp struct, as it would sit in memory after
`dcp_one_pkl` if the caller had allocated an array of two. -/
def dcp_neighbor : dcp_t := { pkl := [pkl_c, pkl_c], pkl_count := 0 }

/-! ## Bridging lemmas between the code-side and spec-side definitions -/

theorem reel_d1_eq_running (reel : reel_t) :
    reel_d1 reel = running_duration_after_sound reel := by
  unfold reel_d1 running_duration_after_sound
  simp only [Nat.min_def]
  split_ifs <;> omega

theorem reel_d2_eq_min (reel : reel_t) :
    reel_d2 reel = present_min_duration reel := by
  unfold reel_d2 present_min_duration
  rw [reel_d1_eq_running]
  unfold running_duration_after_sound
  by_cases hs : reel.main_sound.duration = 0 <;>
    by_cases ht : reel.main_subtitle.duration = 0 <;>
      simp [hs, ht, Nat.min_def] <;> (try split_ifs) <;> omega

theorem reel_dm_iff (reel : reel_t) :
    reel_dm reel ↔ duration_mismatch_detected reel := by
  unfold reel_dm duration_mismatch_detected
  rw [reel_d1_eq_running]

theorem present_min_duration_ne_zero (reel : reel_t)
    (h : reel.main_picture.duration ≠ 0) : present_min_duration reel ≠ 0 := by
  unfold present_min_duration
  by_cases hs : reel.main_sound.duration = 0 <;>
    by_cases ht : reel.main_subtitle.duration = 0 <;>
      simp [hs, ht, Nat.min_def] <;> (try split_ifs) <;> omega

theorem validate_reel_no_picture (reel : reel_t)
    (h : reel.main_picture.essence_class ≠ ACT_PICTURE) :
    validate_reel reel = (OPENDCP_NO_PICTURE_TRACK, reel) := by
  unfold validate_reel
  simp [h]

theorem validate_reel_ns_fail (reel : reel_t)
    (hpic : reel.main_picture.essence_class = ACT_PICTURE)
    (h : ns_check_fails reel) :
    validate_reel reel = (OPENDCP_SPECIFICATION_MISMATCH, reel) := by
  unfold validate_reel
  by_cases h1 : reel.main_sound.duration ≠ 0 ∧
      reel.main_picture.xml_ns ≠ reel.main_sound.xml_ns
  · simp [hpic, h1]
  · rcases h with h | h
    · exact absurd h h1
    · simp [hpic, h1, h]

theorem validate_reel_ok_mismatch (reel : reel_t)
    (hpic : reel.main_picture.essence_class = ACT_PICTURE)
    (hns : ¬ns_check_fails reel) (hm : reel_dm reel) :
    validate_reel reel =
      (OPENDCP_NO_ERROR,
        { reel with
            main_picture := { reel.main_picture with duration := reel_d2 reel },
            main_sound := { reel.main_sound with duration := reel_d2 reel },
            main_subtitle := { reel.main_subtitle with duration := reel_d2 reel } }) := by
  have h1 : ¬(reel.main_sound.duration ≠ 0 ∧
      reel.main_picture.xml_ns ≠ reel.main_sound.xml_ns) :=
    fun hc => hns (Or.inl hc)
  have h2 : ¬(reel.main_subtitle.duration ≠ 0 ∧
      reel.main_picture.xml_ns ≠ reel.main_subtitle.xml_ns) :=
    fun hc => hns (Or.inr hc)
  unfold validate_reel
  simp [hpic, h1, h2, hm]

theorem validate_reel_ok_no_mismatch (reel : reel_t)
    (hpic : reel.main_picture.essence_class = ACT_PICTURE)
    (hns : ¬ns_check_fails reel) (hnm : ¬reel_dm reel) :
    validate_reel reel = (OPENDCP_NO_ERROR, reel) := by
  have h1 : ¬(reel.main_sound.duration ≠ 0 ∧
      reel.main_picture.xml_ns ≠ reel.main_sound.xml_ns) :=
    fun hc => hns (Or.inl hc)
  have h2 : ¬(reel.main_subtitle.duration ≠ 0 ∧
      reel.main_picture.xml_ns ≠ reel.main_subtitle.xml_ns) :=
    fun hc => hns (Or.inr hc)
  unfold validate_reel
  simp [hpic, h1, h2, hnm]

/-! ## Supporting lemmas for the aggregation operations -/

theorem add_cpl_to_pkl_appends (p : pkl_t) (c : cpl_t)
    (h : p.cpl_count < p.cpl.length) :
    (add_cpl_to_pkl p c).cpl.get? p.cpl_count = some c ∧
    (∀ i, i < p.cpl_count → (add_cpl_to_pkl p c).cpl.get? i = p.cpl.get? i) ∧
    (add_cpl_to_pkl p c).cpl_count = p.cpl_count + 1 := by
  refine ⟨?_, fun i hi => ?_, rfl⟩
  · unfold add_cpl_to_pkl
    simp [List.get?_eq_getElem?, List.getElem?_set, h]
  · unfold add_cpl_to_pkl
    have hne : p.cpl_count ≠ i := by omega
    simp [List.get?_eq_getElem?, List.getElem?_set, hne]

theorem add_reel_to_cpl_appends (c : cpl_t) (r : reel_t)
    (h : c.reel_count < c.reel.length) :
    (add_reel_to_cpl c r).reel.get? c.reel_count = some r ∧
    (∀ i, i < c.reel_count → (add_reel_to_cpl c r).reel.get? i = c.reel.get? i) ∧
    (add_reel_to_cpl c r).reel_count = c.reel_count + 1 := by
  refine ⟨?_, fun i hi => ?_, rfl⟩
  · unfold add_reel_to_cpl
    simp [List.get?_eq_getElem?, List.getElem?_set, h]
  · unfold add_reel_to_cpl
    have hne : c.reel_count ≠ i := by omega
    simp [List.get?_eq_getElem?, List.getElem?_set, hne]

/-! ## Claim theorems -/

/-- C1: for every reel that passes the picture-presence and namespace
checks `validate_reel` succeeds; when some present Sound or TimedText
duration differs from the running duration it overwrites all three
duration fields with the final value, which is the minimum duration of
the present tracks (Picture always counted); when no mismatch occurs
the reel is unchanged. -/
theorem validate_reel_min_reconciliation (reel : reel_t)
    (hpic : reel.main_picture.essence_class = ACT_PICTURE)
    (hns : ¬ns_check_fails reel) :
    (validate_reel reel).1 = OPENDCP_NO_ERROR ∧
    (duration_mismatch_detected reel →
      (validate_reel reel).2.main_picture.duration = present_min_duration reel ∧
      (validate_reel reel).2.main_sound.duration = present_min_duration reel ∧
      (validate_reel reel).2.main_subtitle.duration = present_min_duration reel) ∧
    (¬duration_mismatch_detected reel → (validate_reel reel).2 = reel) := by
  by_cases hm : reel_dm reel
  · rw [validate_reel_ok_mismatch reel hpic hns hm]
    exact ⟨rfl,
      fun _ => ⟨reel_d2_eq_min reel, reel_d2_eq_min reel, reel_d2_eq_min reel⟩,
      fun hnd => absurd ((reel_dm_iff reel).mp hm) hnd⟩
  · rw [validate_reel_ok_no_mismatch reel hpic hns hm]
    exact ⟨rfl, fun hd => absurd ((reel_dm_iff reel).mpr hd) hm, fun _ => rfl⟩

/-- C1 witness: the 120/100 reel of the spec — validation succeeds and
both durations end at 100. -/
theorem validate_reel_min_reconciliation_witness :
    (validate_reel reel_120_100).1 = OPENDCP_NO_ERROR ∧
    (validate_reel reel_120_100).2.main_picture.duration = 100 ∧
    (validate_reel reel_120_100).2.main_sound.duration = 100 := by
  have h := validate_reel_min_reconciliation reel_120_100 (by decide) (by decide)
  have hd : duration_mismatch_detected reel_120_100 := by decide
  have h100 : present_min_duration reel_120_100 = 100 := by decide
  exact ⟨h.1, h100 ▸ (h.2.1 hd).1, h100 ▸ (h.2.1 hd).2.1⟩

/-- C2 counterexample: a forced entry point of 5 with an asset duration
of 5 "does not exceed" the duration, yet the code keeps the probed
entry point and emits the warning — the claimed policy (replace
whenever the forced value does not exceed) is false; the code requires
strictly-less. -/
theorem add_asset_equal_entry_point_rejected :
    ctx_forced_ep5.entry_point ≤ probed_sound_5.duration ∧
    (add_asset ctx_forced_ep5 true (some probed_sound_5)).asset.entry_point ≠
      ctx_forced_ep5.entry_point ∧
    (add_asset ctx_forced_ep5 true (some probed_sound_5)).entry_point_warning = true := by
  decide

/-- C2 amended: a nonzero forced duration replaces the probed duration
exactly when it is strictly less than it, otherwise the probed duration
is kept and a warning is emitted; the same strict policy applies to a
nonzero forced entry point relative to the asset's (possibly already
overridden) duration. -/
theorem add_asset_override_policy (opendcp : opendcp_t) (probed : asset_t) :
    (add_asset opendcp true (some probed)).status = OPENDCP_NO_ERROR ∧
    (opendcp.duration ≠ 0 → opendcp.duration < probed.duration →
      (add_asset opendcp true (some probed)).asset.duration = opendcp.duration ∧
      (add_asset opendcp true (some probed)).duration_warning = false) ∧
    (opendcp.duration ≠ 0 → ¬opendcp.duration < probed.duration →
      (add_asset opendcp true (some probed)).asset.duration = probed.duration ∧
      (add_asset opendcp true (some probed)).duration_warning = true) ∧
    (opendcp.duration = 0 →
      (add_asset opendcp true (some probed)).asset.duration = probed.duration ∧
      (add_asset opendcp true (some probed)).duration_warning = false) ∧
    (opendcp.entry_point ≠ 0 →
      opendcp.entry_point < (add_asset opendcp true (some probed)).asset.duration →
      (add_asset opendcp true (some probed)).asset.entry_point = opendcp.entry_point ∧
      (add_asset opendcp true (some probed)).entry_point_warning = false) ∧
    (opendcp.entry_point ≠ 0 →
      ¬opendcp.entry_point < (add_asset opendcp true (some probed)).asset.duration →
      (add_asset opendcp true (some probed)).asset.entry_point = probed.entry_point ∧
      (add_asset opendcp true (some probed)).entry_point_warning = true) ∧
    (opendcp.entry_point = 0 →
      (add_asset opendcp true (some probed)).asset.entry_point = probed.entry_point ∧
      (add_asset opendcp true (some probed)).entry_point_warning = false) := by
  unfold add_asset
  by_cases ha : opendcp.dcp.aspect_ratio = "" <;>
    by_cases hd : opendcp.duration = 0 <;>
      by_cases he : opendcp.entry_point = 0 <;>
        simp [ha, hd, he] <;> split_ifs <;> simp_all

/-- C2 amended witness: forced duration 50 and entry point 10 against a
probed 120-frame asset are both applied without warnings. -/
theorem add_asset_override_policy_witness :
    (add_asset ctx_forced_dur50 true (some probed_picture_120)).asset.duration = 50 ∧
    (add_asset ctx_forced_dur50 true (some probed_picture_120)).asset.entry_point = 10 ∧
    (add_asset ctx_forced_dur50 true (some probed_picture_120)).duration_warning = false ∧
    (add_asset ctx_forced_dur50 true (some probed_picture_120)).entry_point_warning = false := by
  have h := add_asset_override_policy ctx_forced_dur50 probed_picture_120
  have h1 := h.2.1 (by decide) (by decide)
  have h2 := h.2.2.2.2.1 (by decide) (by decide)
  exact ⟨h1.1, h2.1, h1.2, h2.2⟩

/-- C3: evaluation of `add_pkl_to_dcp` at the failing input.  With a
single allocated dcp whose capacity-2 pkl sequence already holds one
pkl (`pkl_count = 1`), the destination `dcp[pkl_count].pkl` indexes one
whole `dcp_t` past the allocated struct, so the write is out of bounds
(`none`) instead of filling `dcp->pkl[1]`; were a second `dcp_t`
adjacent in memory, the new pkl would land in slot 0 of that NEIGHBOR
while slot 1 of the intended sequence keeps its old value. -/
theorem add_pkl_to_dcp_wrong_slot :
    add_pkl_to_dcp [dcp_one_pkl] pkl_b = none ∧
    (add_pkl_to_dcp [dcp_one_pkl, dcp_neighbor] pkl_b).map (List.map dcp_t.pkl) =
      some [[pkl_a, pkl_a], [pkl_b, pkl_c]] := by
  decide

/-- C4: with the package namespace already committed and differing from
the asset's, `add_asset_to_reel` fails with SpecificationMismatch and
leaves both the context and the reel untouched. -/
theorem add_asset_to_reel_mismatch_rejects (opendcp : opendcp_t)
    (reel : reel_t) (asset : asset_t)
    (h1 : opendcp.ns ≠ XML_NS_UNKNOWN) (h2 : opendcp.ns ≠ asset.xml_ns) :
    add_asset_to_reel opendcp reel asset =
      (OPENDCP_SPECIFICATION_MISMATCH, opendcp, reel) := by
  unfold add_asset_to_reel
  rw [if_neg h1, if_pos h2]

/-- C4 witness: attaching an Interop asset to an SMPTE-committed package. -/
theorem add_asset_to_reel_mismatch_rejects_witness :
    add_asset_to_reel ctx_smpte {} asset_interop_sound =
      (OPENDCP_SPECIFICATION_MISMATCH, ctx_smpte, {}) :=
  add_asset_to_reel_mismatch_rejects ctx_smpte {} asset_interop_sound
    (by decide) (by decide)

/-- C5: the package namespace makes exactly one transition — an Unknown
namespace is set to the attached asset's variant, while a committed
namespace is never changed by any later `add_asset_to_reel` call. -/
theorem add_asset_to_reel_ns_transition (opendcp : opendcp_t)
    (reel : reel_t) (asset : asset_t) :
    (opendcp.ns = XML_NS_UNKNOWN →
      (add_asset_to_reel opendcp reel asset).2.1.ns = asset.xml_ns) ∧
    (opendcp.ns ≠ XML_NS_UNKNOWN →
      (add_asset_to_reel opendcp reel asset).2.1.ns = opendcp.ns) := by
  constructor
  · intro h
    unfold add_asset_to_reel
    rw [if_pos h]
    unfold place_asset
    cases hg : get_asset_type asset <;> simp [hg]
  · intro h
    unfold add_asset_to_reel
    rw [if_neg h]
    by_cases h2 : opendcp.ns ≠ asset.xml_ns
    · rw [if_pos h2]
    · rw [if_neg h2]
      unfold place_asset
      cases hg : get_asset_type asset <;> simp [hg]

/-- C5 witness: the first asset commits an Unknown package to SMPTE, and
an SMPTE-committed package stays SMPTE across a further attach. -/
theorem add_asset_to_reel_ns_transition_witness :
    (add_asset_to_reel ctx_unknown {} probed_picture_120).2.1.ns = XML_NS_SMPTE ∧
    (add_asset_to_reel ctx_smpte {} probed_sound_5).2.1.ns = XML_NS_SMPTE :=
  ⟨(add_asset_to_reel_ns_transition ctx_unknown {} probed_picture_120).1 (by decide),
   (add_asset_to_reel_ns_transition ctx_smpte {} probed_sound_5).2 (by decide)⟩

/-- C6: for a reel with a Picture track, a present (nonzero-duration)
Sound or TimedText whose namespace differs from the Picture's makes
`validate_reel` return SpecificationMismatch with every duration field
unchanged; zero-duration tracks are exempt from the check. -/
theorem validate_reel_ns_consistency (reel : reel_t)
    (hpic : reel.main_picture.essence_class = ACT_PICTURE) :
    (ns_check_fails reel →
      (validate_reel reel).1 = OPENDCP_SPECIFICATION_MISMATCH ∧
      (validate_reel reel).2.main_picture.duration = reel.main_picture.duration ∧
      (validate_reel reel).2.main_sound.duration = reel.main_sound.duration ∧
      (validate_reel reel).2.main_subtitle.duration = reel.main_subtitle.duration) ∧
    (¬ns_check_fails reel →
      (validate_reel reel).1 ≠ OPENDCP_SPECIFICATION_MISMATCH) := by
  constructor
  · intro h
    rw [validate_reel_ns_fail reel hpic h]
    exact ⟨rfl, rfl, rfl, rfl⟩
  · intro h
    by_cases hm : reel_dm reel
    · rw [validate_reel_ok_mismatch reel hpic h hm]
      simp
    · rw [validate_reel_ok_no_mismatch reel hpic h hm]
      simp

/-- C6 witness: Picture SMPTE against a 120-frame Interop Sound. -/
theorem validate_reel_ns_consistency_witness :
    (validate_reel reel_ns_clash).1 = OPENDCP_SPECIFICATION_MISMATCH ∧
    (validate_reel reel_ns_clash).2.main_picture.duration =
      reel_ns_clash.main_picture.duration ∧
    (validate_reel reel_ns_clash).2.main_sound.duration =
      reel_ns_clash.main_sound.duration ∧
    (validate_reel reel_ns_clash).2.main_subtitle.duration =
      reel_ns_clash.main_subtitle.duration :=
  (validate_reel_ns_consistency reel_ns_clash (by decide)).1 (by decide)

/-- C7: a reel whose picture slot holds no Picture-class asset yields
NoPictureTrack whatever the other tracks look like (presence has
priority), and once presence and namespace checks pass the duration
reconciliation always returns success. -/
theorem validate_reel_error_priority (reel : reel_t) :
    (reel.main_picture.essence_class ≠ ACT_PICTURE →
      (validate_reel reel).1 = OPENDCP_NO_PICTURE_TRACK) ∧
    (reel.main_picture.essence_class = ACT_PICTURE → ¬ns_check_fails reel →
      (validate_reel reel).1 = OPENDCP_NO_ERROR) := by
  constructor
  · intro h
    rw [validate_reel_no_picture reel h]
  · intro hpic hns
    by_cases hm : reel_dm reel
    · rw [validate_reel_ok_mismatch reel hpic hns hm]
    · rw [validate_reel_ok_no_mismatch reel hpic hns hm]

/-- C7 witness: a pictureless reel (with a namespace-clashing sound, so
the presence error wins) and a well-formed reel that reconciles. -/
theorem validate_reel_error_priority_witness :
    (validate_reel { main_sound := asset_interop_sound }).1 =
      OPENDCP_NO_PICTURE_TRACK ∧
    (validate_reel reel_120_100).1 = OPENDCP_NO_ERROR :=
  ⟨(validate_reel_error_priority { main_sound := asset_interop_sound }).1 (by decide),
   (validate_reel_error_priority reel_120_100).2 (by decide) (by decide)⟩

/-- C8: `validate_reel` never returns MultiplePictureTrack — the single
picture slot bounds the internal counter by one, so the branch is
unreachable for every input reel. -/
theorem validate_reel_never_multiple (reel : reel_t) :
    (validate_reel reel).1 ≠ OPENDCP_MULTIPLE_PICTURE_TRACK := by
  by_cases hpic : reel.main_picture.essence_class = ACT_PICTURE
  · by_cases hns : ns_check_fails reel
    · rw [validate_reel_ns_fail reel hpic hns]
      simp
    · by_cases hm : reel_dm reel
      · rw [validate_reel_ok_mismatch reel hpic hns hm]
        simp
      · rw [validate_reel_ok_no_mismatch reel hpic hns hm]
        simp
  · rw [validate_reel_no_picture reel hpic]
    simp

/-- C9: `get_asset_type` is a total function of the essence encoding
type realizing the closed classification table of the spec, with every
unlisted encoding mapped to Unknown. -/
theorem get_asset_type_table (asset : asset_t) :
    ((asset.essence_type = AET_MPEG2_VES ∨ asset.essence_type = AET_JPEG_2000 ∨
        asset.essence_type = AET_JPEG_2000_S) →
      get_asset_type asset = ACT_PICTURE) ∧
    ((asset.essence_type = AET_PCM_24b_48k ∨ asset.essence_type = AET_PCM_24b_96k) →
      get_asset_type asset = ACT_SOUND) ∧
    (asset.essence_type = AET_TIMED_TEXT → get_asset_type asset = ACT_TIMED_TEXT) ∧
    ((asset.essence_type ≠ AET_MPEG2_VES ∧ asset.essence_type ≠ AET_JPEG_2000 ∧
        asset.essence_type ≠ AET_JPEG_2000_S ∧ asset.essence_type ≠ AET_PCM_24b_48k ∧
        asset.essence_type ≠ AET_PCM_24b_96k ∧ asset.essence_type ≠ AET_TIMED_TEXT) →
      get_asset_type asset = ACT_UNKNOWN) := by
  unfold get_asset_type
  cases h : asset.essence_type <;> simp [h]

/-- C9 witness: one probe per row of the table. -/
theorem get_asset_type_table_witness :
    get_asset_type probed_picture_120 = ACT_PICTURE ∧
    get_asset_type probed_sound_5 = ACT_SOUND ∧
    get_asset_type { essence_type := AET_TIMED_TEXT } = ACT_TIMED_TEXT ∧
    get_asset_type { essence_type := AET_UNKNOWN } = ACT_UNKNOWN :=
  ⟨(get_asset_type_table probed_picture_120).1 (by decide),
   (get_asset_type_table probed_sound_5).2.1 (by decide),
   (get_asset_type_table { essence_type := AET_TIMED_TEXT }).2.2.1 (by decide),
   (get_asset_type_table { essence_type := AET_UNKNOWN }).2.2.2 (by decide)⟩

/-- C10 counterexample: with a Picture track of duration 0 and a present
5-frame Sound, `validate_reel` detects a mismatch and overwrites, but
the reconciled duration is 0 — so the absent TimedText slot does not
acquire a nonzero duration, contrary to the claim. -/
theorem validate_reel_zero_picture_reconciliation :
    duration_mismatch_detected reel_zero_picture ∧
    reel_zero_picture.main_subtitle.duration = 0 ∧
    (validate_reel reel_zero_picture).1 = OPENDCP_NO_ERROR ∧
    (validate_reel reel_zero_picture).2.main_subtitle.duration = 0 := by
  decide

/-- C10 amended: on a detected mismatch `validate_reel` overwrites the
duration of all three slots unconditionally, absent ones included, with
the reconciled minimum; that minimum is nonzero whenever the Picture
duration is nonzero, so absent slots then pass the nonzero-duration
presence test used elsewhere in validation. -/
theorem validate_reel_overwrites_absent_slots (reel : reel_t)
    (hpic : reel.main_picture.essence_class = ACT_PICTURE)
    (hns : ¬ns_check_fails reel)
    (hm : duration_mismatch_detected reel)
    (hd : reel.main_picture.duration ≠ 0) :
    (validate_reel reel).2.main_picture.duration = present_min_duration reel ∧
    (validate_reel reel).2.main_sound.duration = present_min_duration reel ∧
    (validate_reel reel).2.main_subtitle.duration = present_min_duration reel ∧
    present_min_duration reel ≠ 0 := by
  have hm2 := (reel_dm_iff reel).mpr hm
  rw [validate_reel_ok_mismatch reel hpic hns hm2]
  exact ⟨reel_d2_eq_min reel, reel_d2_eq_min reel, reel_d2_eq_min reel,
    present_min_duration_ne_zero reel hd⟩

/-- C10 amended witness: a reel with Picture 120, absent Sound and a
100-frame TimedText — after validation the absent Sound slot carries
the nonzero duration 100. -/
theorem validate_reel_overwrites_absent_slots_witness :
    reel_absent_sound.main_sound.duration = 0 ∧
    (validate_reel reel_absent_sound).2.main_sound.duration = 100 ∧
    (100 : Nat) ≠ 0 := by
  have h := validate_reel_overwrites_absent_slots reel_absent_sound
    (by decide) (by decide) (by decide) (by decide)
  have hp : present_min_duration reel_absent_sound = 100 := by decide
  exact ⟨by decide, hp ▸ h.2.1, by decide⟩
